import Mathlib

/-!
Verification of the booking and scheduling engine of the course-tutor-app
repository.  The definitions below are a shallow embedding of the JavaScript
source (backend/controllers/bookingController.js, backend/models/Booking.js,
backend/routes/bookingRoutes.js, backend/models/User.js):

* Time-of-day values travel through the source as `HH:MM` strings; they are
  embedded as lists of character codes (`TStr`), so that both the numeric
  parsing (`parseTime`) and MongoDB's byte-wise lexicographic string
  comparison (`ltStr`, used by the `$lt`/`$gt` operators of the conflict
  query in `createBooking`) can be modelled exactly.
* Calendar dates are embedded as day numbers (`Nat`); the stored
  `sessionDate` of a booking is midnight of that day
  (`new Date(sessionDate)`), i.e. `day * 86400000` in epoch milliseconds.
  `toLocaleDateString(weekday)` is embedded as the day number modulo 7.
* JavaScript numeric expressions on integers embedded in the float range are
  modelled with exact arithmetic: `Math.round` becomes `jsRound` over `ℚ`.
* The MongoDB collections become a `SysState` record; each fallible endpoint
  becomes a function returning `Except BError _`.  A thrown model-method
  error (e.g. `Cannot cancel completed ... bookings`) surfaces as
  `BError.invalidState`, matching the protocol-neutral error taxonomy.
* Fields of the Booking schema that no modelled operation reads or branches
  on (meetingLink, meetingId, tutorNotes, sessionMaterials, homework,
  attendance join flags, paymentReference, refundReason, currency,
  createdAt/updatedAt) are elided.
-/

/-- A time-of-day string, as a list of character codes (e.g. `10:00` is
`[49, 48, 58, 48, 48]`; 58 is the colon). -/
abbrev TStr := List Nat

/-- `Number` applied to a digit string, as done by
`timeString.split(':').map(Number)` in `parseTime`. -/
def parseDigits (cs : List Nat) : Nat :=
  cs.foldl (fun acc c => acc * 10 + (c - 48)) 0

/-- `timeString.split(':')` restricted to its first two components.  The
validated inputs contain exactly one colon, so splitting at the first colon
is exact. -/
def splitAtColon : List Nat → List Nat × List Nat
  | [] => ([], [])
  | c :: rest =>
    if c = 58 then ([], rest)
    else ((splitAtColon rest).1.cons c, (splitAtColon rest).2)

/-- `parseTime` from bookingController.js: `hours * 60 + minutes`. -/
def parseTime (t : TStr) : Nat :=
  parseDigits (splitAtColon t).1 * 60 + parseDigits (splitAtColon t).2

/-- `formatTime` from bookingController.js: two-digit zero-padded
`HH:MM` rendering of minutes-since-midnight (faithful for hours below 100,
i.e. all minute values produced by slot generation). -/
def formatTime (m : Nat) : TStr :=
  [48 + m / 60 / 10, 48 + m / 60 % 10, 58, 48 + m % 60 / 10, 48 + m % 60 % 10]

/-- Byte-wise lexicographic string order: MongoDB's `$lt` on BSON strings
with the default binary collation. -/
def ltStr : TStr → TStr → Bool
  | [], [] => false
  | [], _ :: _ => true
  | _ :: _, [] => false
  | a :: as, b :: bs => if a < b then true else if b < a then false else ltStr as bs

/-- The `[0-5][0-9]` minutes part of the time-validation regex in
bookingRoutes.js. -/
def validMinutes (m1 m2 : Nat) : Bool :=
  decide (48 ≤ m1 ∧ m1 ≤ 53) && decide (48 ≤ m2 ∧ m2 ≤ 57)

/-- The validation regex `^([0-1]?[0-9]|2[0-3]):[0-5][0-9]$` of
`createBookingValidation` (bookingRoutes.js); note that a single-digit hour
such as `9:00` is accepted. -/
def validTime : TStr → Bool
  | [h, 58, m1, m2] => decide (48 ≤ h ∧ h ≤ 57) && validMinutes m1 m2
  | [h1, h2, 58, m1, m2] =>
    ((decide (h1 = 48 ∨ h1 = 49) && decide (48 ≤ h2 ∧ h2 ≤ 57)) ||
      (decide (h1 = 50) && decide (48 ≤ h2 ∧ h2 ≤ 51))) && validMinutes m1 m2
  | _ => false

/-- JavaScript `Math.round` on a (non-negative, exactly representable)
numeric value: round half up. -/
def jsRound (q : ℚ) : Int := ⌊q + 1/2⌋

/-- Booking status enum of the Booking schema. -/
inductive BStatus
  | pending | confirmed | inProgress | completed | cancelled | noShow
deriving DecidableEq

/-- Payment status enum of the Booking schema. -/
inductive PayStatus
  | pending | paid | failed | refunded
deriving DecidableEq

/-- Payment method enum of the Booking schema. -/
inductive PayMethod
  | cash | bkash | nagad | rocket | bankTransfer
deriving DecidableEq

/-- User role (User schema). -/
inductive Role
  | student | tutor | admin
deriving DecidableEq

/-- `feedback.studentFeedback` sub-document. -/
structure StudentFeedback where
  rating : Nat
  comment : String
  submittedAt : Int
deriving DecidableEq

/-- `feedback.tutorFeedback` sub-document (the tutor rates the student). -/
structure TutorFeedback where
  studentRating : Nat
  comment : String
  submittedAt : Int
deriving DecidableEq

/-- The two embedded per-side feedback slots of a booking. -/
structure Feedback where
  studentFeedback : Option StudentFeedback := none
  tutorFeedback : Option TutorFeedback := none
deriving DecidableEq

/-- One entry of `rescheduleHistory`. -/
structure RescheduleRecord where
  oldDate : Nat
  newDate : Nat
  oldStartTime : TStr
  newStartTime : TStr
  reason : String
  requestedBy : Nat
  requestedAt : Int
deriving DecidableEq

/-- The Booking document (modelled fields of the Booking schema).
`sessionDate` is the day number; the stored `Date` is midnight of that
day. -/
structure Booking where
  student : Nat
  tutor : Nat
  course : Nat
  sessionDate : Nat
  startTime : TStr
  endTime : TStr
  duration : Nat
  totalAmount : Int
  status : BStatus := .pending
  paymentStatus : PayStatus := .pending
  paymentMethod : PayMethod := .cash
  notes : String := ""
  cancellationReason : Option String := none
  refundAmount : ℚ := 0
  rescheduleHistory : List RescheduleRecord := []
  feedback : Feedback := {}
  sessionEndTime : Option Int := none
deriving DecidableEq

/-- One `{day, startTime, endTime}` recurring window of
`User.availableHours`; `day` is the weekday index (0 = Monday). -/
structure DayWindow where
  day : Nat
  startTime : TStr
  endTime : TStr
deriving DecidableEq

/-- The modelled slice of the User document. -/
structure User where
  id : Nat
  role : Role
  isApproved : Bool
  hourlyRate : Nat
  availableHours : List DayWindow
deriving DecidableEq

/-- The modelled slice of the Course document. -/
structure Course where
  id : Nat
  tutor : Nat
deriving DecidableEq

/-- The database state: the three collections touched by the booking
engine, plus the id counter for newly inserted bookings. -/
structure SysState where
  users : List User
  courses : List Course
  bookings : List (Nat × Booking)
  nextBookingId : Nat

/-- `User.findById`. -/
def findUser (st : SysState) (id : Nat) : Option User :=
  st.users.find? (fun u => u.id == id)

/-- `Course.findById`. -/
def findCourse (st : SysState) (id : Nat) : Option Course :=
  st.courses.find? (fun c => c.id == id)

/-- `Booking.findById`. -/
def findBooking (st : SysState) (id : Nat) : Option Booking :=
  (st.bookings.find? (fun p => p.1 == id)).map Prod.snd

/-- `booking.save()` of an existing document: replace the booking stored
under `id`. -/
def updateBooking (st : SysState) (id : Nat) (b : Booking) : SysState :=
  { st with bookings := st.bookings.map (fun p => if p.1 == id then (id, b) else p) }

/-- `toLocaleDateString(weekday)`: the weekday index of a day number. -/
def dayOfWeek (d : Nat) : Nat := d % 7

/-- Milliseconds per day; the stored `sessionDate` of day `d` is
`d * msPerDay` in epoch milliseconds. -/
def msPerDay : Int := 86400000

/-- The protocol-level error taxonomy of the exposed operations. -/
inductive BError
  | notFound | forbidden | invalidState | conflict | validation
  | notAvailableDay | outsideHours
deriving DecidableEq

/-- A generated availability slot (`generateTimeSlots` output objects). -/
structure Slot where
  startTime : TStr
  endTime : TStr
  duration : Nat
  available : Bool
deriving DecidableEq

/-- The half-open overlap test of `generateTimeSlots`:
`current < bookingEnd && (current + intervalMinutes) > bookingStart`. -/
def overlapsNum (current g bs be : Nat) : Bool :=
  decide (current < be) && decide (bs < current + g)

/-- `existingBookings.some(...)` inside the slot loop. -/
def bookedAt (bks : List Booking) (s g : Nat) : Bool :=
  bks.any (fun b => overlapsNum s g (parseTime b.startTime) (parseTime b.endTime))

/-- The slot object pushed by the loop for start minute `s`. -/
def slotAt (s g : Nat) : Slot :=
  ⟨formatTime s, formatTime (s + g), g, true⟩

/-- The `while (current < end)` loop of `generateTimeSlots`.  The loop
advances `current` by `intervalMinutes` per iteration; `fuel` bounds the
number of iterations and is chosen large enough (`≥ end − current`) by
`generateTimeSlots`, so the embedding agrees with the source loop whenever
the granularity is positive (the source only ever uses 30). -/
def genSlotsAux (g : Nat) (bks : List Booking) : Nat → Nat → Nat → List Slot
  | 0, _, _ => []
  | fuel + 1, current, e =>
    if current < e then
      (if bookedAt bks current g = false ∧ current + g ≤ e
        then [slotAt current g] else []) ++
      genSlotsAux g bks fuel (current + g) e
    else []

/-- `generateTimeSlots` from bookingController.js. -/
def generateTimeSlots (startTime endTime : TStr) (existingBookings : List Booking)
    (intervalMinutes : Nat) : List Slot :=
  genSlotsAux intervalMinutes existingBookings (parseTime endTime)
    (parseTime startTime) (parseTime endTime)

/-- The `Booking.find` query of `getTutorAvailability`: this tutor, this
date, status in `confirmed`/`in-progress`. -/
def isActive (b : Booking) : Bool :=
  b.status == .confirmed || b.status == .inProgress

/-- The list of blocking bookings fetched by `getTutorAvailability`. -/
def activeBookingsOn (st : SysState) (tutorId date : Nat) : List Booking :=
  (st.bookings.filter
    (fun p => p.2.tutor == tutorId && p.2.sessionDate == date && isActive p.2)).map Prod.snd

/-- Result type of `getTutorAvailability`: 404 for a missing or unapproved
tutor; `noWindow` is the 200 response with an empty slot list and a
`not available on this day` message. -/
inductive AvailResult
  | notFound
  | noWindow
  | slots (l : List Slot)
deriving DecidableEq

/-- `getTutorAvailability` from bookingController.js. -/
def getTutorAvailability (st : SysState) (tutorId date : Nat) : AvailResult :=
  match findUser st tutorId with
  | none => .notFound
  | some tutor =>
    if ¬ (tutor.role = .tutor ∧ tutor.isApproved) then .notFound
    else
      match tutor.availableHours.find? (fun w => w.day == dayOfWeek date) with
      | none => .noWindow
      | some w => .slots (generateTimeSlots w.startTime w.endTime (activeBookingsOn st tutorId date) 30)

/-- The `Booking.findOne` conflict query of `createBooking`: an active
booking of this tutor on this date whose stored time strings satisfy
`startTime $lt endTime` and `endTime $gt startTime` under MongoDB's
lexicographic string order. -/
def hasConflictStr (st : SysState) (tutorId date : Nat) (startTime endTime : TStr) : Bool :=
  st.bookings.any (fun p =>
    p.2.tutor == tutorId && p.2.sessionDate == date && isActive p.2 &&
    ltStr p.2.startTime endTime && ltStr startTime p.2.endTime)

/-- The request body of `createBooking`. -/
structure CreateReq where
  tutorId : Nat
  courseId : Nat
  sessionDate : Nat
  startTime : TStr
  endTime : TStr
  duration : Nat
  paymentMethod : Option PayMethod := none
  notes : String := ""

/-- `createBooking` from bookingController.js (validation from
bookingRoutes.js runs first).  On success returns the new state and the id
of the inserted booking. -/
def createBooking (st : SysState) (studentId : Nat) (r : CreateReq) :
    Except BError (SysState × Nat) :=
  if ¬ (validTime r.startTime = true ∧ validTime r.endTime = true ∧ 30 ≤ r.duration) then
    .error .validation
  else
    match findUser st r.tutorId with
    | none => .error .notFound
    | some tutor =>
      if ¬ (tutor.role = .tutor ∧ tutor.isApproved) then .error .notFound
      else
        match findCourse st r.courseId with
        | none => .error .notFound
        | some course =>
          if ¬ course.tutor = r.tutorId then .error .notFound
          else
            match tutor.availableHours.find? (fun w => w.day == dayOfWeek r.sessionDate) with
            | none => .error .notAvailableDay
            | some w =>
              if parseTime r.startTime < parseTime w.startTime ∨
                  parseTime w.endTime < parseTime r.endTime then
                .error .outsideHours
              else if hasConflictStr st r.tutorId r.sessionDate r.startTime r.endTime then
                .error .conflict
              else
                let totalAmount := jsRound ((tutor.hourlyRate : ℚ) * ((r.duration : ℚ) / 60))
                let b : Booking :=
                  { student := studentId, tutor := r.tutorId, course := r.courseId,
                    sessionDate := r.sessionDate, startTime := r.startTime,
                    endTime := r.endTime, duration := r.duration,
                    totalAmount := totalAmount, status := .pending,
                    paymentMethod := r.paymentMethod.getD .cash, notes := r.notes }
                Except.ok
                  ({ st with
                    bookings := st.bookings ++ [(st.nextBookingId, b)],
                    nextBookingId := st.nextBookingId + 1 }, st.nextBookingId)

/-- `bookingSchema.methods.confirm`. -/
def Booking.confirm (b : Booking) : Except BError Booking :=
  if ¬ b.status = .pending then .error .invalidState
  else .ok { b with status := .confirmed }

/-- `bookingSchema.methods.cancel`. -/
def Booking.cancel (b : Booking) (reason : String) (refundAmount : ℚ) :
    Except BError Booking :=
  if b.status = .completed ∨ b.status = .cancelled then .error .invalidState
  else
    let b1 := { b with status := BStatus.cancelled, cancellationReason := some reason }
    Except.ok (if 0 < refundAmount then
      { b1 with refundAmount := refundAmount, paymentStatus := .refunded } else b1)

/-- `bookingSchema.methods.complete`. -/
def Booking.complete (b : Booking) (nowMs : Int) : Except BError Booking :=
  if ¬ (b.status = .confirmed ∨ b.status = .inProgress) then .error .invalidState
  else .ok { b with status := .completed, sessionEndTime := some nowMs }

/-- `bookingSchema.methods.reschedule`: push a history record, then update
date and times.  No conflict re-check occurs. -/
def Booking.reschedule (b : Booking) (newDate : Nat) (newStartTime newEndTime : TStr)
    (reason : String) (requestedBy : Nat) (nowMs : Int) : Except BError Booking :=
  if b.status = .completed ∨ b.status = .cancelled then .error .invalidState
  else .ok { b with
    rescheduleHistory := b.rescheduleHistory ++
      [{ oldDate := b.sessionDate, newDate := newDate, oldStartTime := b.startTime,
         newStartTime := newStartTime, reason := reason, requestedBy := requestedBy,
         requestedAt := nowMs }],
    sessionDate := newDate, startTime := newStartTime, endTime := newEndTime }

/-- `bookingSchema.methods.addFeedback`: overwrite the submitting side's
slot; any other role saves without touching either slot. -/
def Booking.addFeedbackM (b : Booking) (role : Role) (rating : Nat) (comment : String)
    (nowMs : Int) : Except BError Booking :=
  if ¬ b.status = .completed then .error .invalidState
  else
    match role with
    | .student =>
      .ok { b with
        feedback := { b.feedback with studentFeedback := some ⟨rating, comment, nowMs⟩ } }
    | .tutor =>
      .ok { b with
        feedback := { b.feedback with tutorFeedback := some ⟨rating, comment, nowMs⟩ } }
    | .admin => .ok b

/-- `confirmBooking` from bookingController.js (tutor only). -/
def confirmBooking (st : SysState) (bookingId tutorId : Nat) : Except BError SysState :=
  match findBooking st bookingId with
  | none => .error .notFound
  | some b =>
    if ¬ b.tutor = tutorId then .error .forbidden
    else if ¬ b.status = .pending then .error .invalidState
    else (b.confirm).map (updateBooking st bookingId)

/-- `hoursUntilSession` as computed by `cancelBooking`:
`(new Date(booking.sessionDate) − now) / 3600000`.  Note that this uses the
stored `sessionDate` (midnight of the session day), not the `startTime`. -/
def hoursUntilSession (sessionDate : Nat) (nowMs : Int) : ℚ :=
  (((sessionDate : Int) * msPerDay - nowMs : Int) : ℚ) / 3600000

/-- The tiered refund of `cancelBooking`: full above 24 hours, half above
2 hours, otherwise zero. -/
def refundFor (totalAmount : Int) (h : ℚ) : ℚ :=
  if 24 < h then (totalAmount : ℚ)
  else if 2 < h then (totalAmount : ℚ) * (1/2)
  else 0

/-- `cancelBooking` from bookingController.js (participant only).  On
success returns the new state and the refund amount. -/
def cancelBooking (st : SysState) (bookingId userId : Nat) (reason : String)
    (nowMs : Int) : Except BError (SysState × ℚ) :=
  match findBooking st bookingId with
  | none => .error .notFound
  | some b =>
    if ¬ (b.student = userId ∨ b.tutor = userId) then .error .forbidden
    else
      let refund := refundFor b.totalAmount (hoursUntilSession b.sessionDate nowMs)
      (b.cancel reason refund).map (fun b1 => (updateBooking st bookingId b1, refund))

/-- `completeBooking` from bookingController.js (tutor only). -/
def completeBooking (st : SysState) (bookingId tutorId : Nat) (nowMs : Int) :
    Except BError SysState :=
  match findBooking st bookingId with
  | none => .error .notFound
  | some b =>
    if ¬ b.tutor = tutorId then .error .forbidden
    else (b.complete nowMs).map (updateBooking st bookingId)

/-- The reschedule operation at the persistence layer: look up the booking
and apply `Booking.reschedule` (the repository exposes no further guard
around the model method). -/
def rescheduleBooking (st : SysState) (bookingId newDate : Nat)
    (newStartTime newEndTime : TStr) (reason : String) (requestedBy : Nat)
    (nowMs : Int) : Except BError SysState :=
  match findBooking st bookingId with
  | none => .error .notFound
  | some b =>
    (b.reschedule newDate newStartTime newEndTime reason requestedBy nowMs).map
      (updateBooking st bookingId)

/-- `addBookingFeedback` from bookingController.js (participant only). -/
def addBookingFeedback (st : SysState) (bookingId userId : Nat) (role : Role)
    (rating : Nat) (comment : String) (nowMs : Int) : Except BError SysState :=
  match findBooking st bookingId with
  | none => .error .notFound
  | some b =>
    if ¬ (b.student = userId ∨ b.tutor = userId) then .error .forbidden
    else (b.addFeedbackM role rating comment nowMs).map (updateBooking st bookingId)

/-- `updateProfile` (authController.js) restricted to the hourly-rate field:
`User.findByIdAndUpdate` touches only the users collection. -/
def updateTutorHourlyRate (st : SysState) (userId newRate : Nat) : SysState :=
  { st with
    users := st.users.map
      (fun u => if u.id == userId then { u with hourlyRate := newRate } else u) }

/-- Numeric half-open interval overlap: `[s1,e1)` and `[s2,e2)` intersect. -/
def numOverlap (s1 e1 s2 e2 : Nat) : Bool :=
  decide (s1 < e2) && decide (s2 < e1)

/-- Two distinct stored bookings violate the scheduling invariant: same
tutor, same date, both active, numerically overlapping intervals. -/
def pairConflict (b1 b2 : Booking) : Bool :=
  b1.tutor == b2.tutor && b1.sessionDate == b2.sessionDate &&
  isActive b1 && isActive b2 &&
  numOverlap (parseTime b1.startTime) (parseTime b1.endTime)
    (parseTime b2.startTime) (parseTime b2.endTime)

/-- The no-double-booking invariant, as a decidable check over a state. -/
def noOverlapB (st : SysState) : Bool :=
  st.bookings.all (fun p => st.bookings.all (fun q => p.1 == q.1 || ! pairConflict p.2 q.2))

/-- Whether a fallible operation succeeded. -/
def isOkE {α : Type} : Except BError α → Bool
  | .ok _ => true
  | .error _ => false

/-- The stored `totalAmount` of booking `id` in state `st`. -/
def amountAt (st : SysState) (id : Nat) : Option Int :=
  (findBooking st id).map (fun b => b.totalAmount)

/-- Modelled from the spec (§4.5): the refund rule exactly as the
specification words it, with `hoursUntilSession = (sessionStart − now)`
measured from the session start, i.e. midnight of the session day plus the
parsed `startTime`.  This is the claim-side definition for C5, to be
compared with the code-side `cancelBooking`. -/
def specHoursUntilSession (b : Booking) (nowMs : Int) : ℚ :=
  (((b.sessionDate : Int) * msPerDay + (parseTime b.startTime : Int) * 60000 - nowMs : Int) : ℚ)
    / 3600000

/-- Modelled from the spec (§4.5): tiered refund against the session
start. -/
def specRefund (b : Booking) (nowMs : Int) : ℚ :=
  if 24 < specHoursUntilSession b nowMs then (b.totalAmount : ℚ)
  else if 2 < specHoursUntilSession b nowMs then (b.totalAmount : ℚ) / 2
  else 0

/-- Lexicographic comparison of two rendered `HH:MM` strings, unfolded to a
decidable digit-wise condition. -/
theorem ltStr5 (a1 a2 a3 a4 b1 b2 b3 b4 : Nat) :
    ltStr [a1, a2, 58, a3, a4] [b1, b2, 58, b3, b4] =
      decide (a1 < b1 ∨ (a1 = b1 ∧ (a2 < b2 ∨ (a2 = b2 ∧
        (a3 < b3 ∨ (a3 = b3 ∧ a4 < b4)))))) := by
  simp only [ltStr, Nat.lt_irrefl, if_false]
  split_ifs <;> simp <;> omega

/-- On zero-padded two-digit-hour renderings, the lexicographic string
order agrees with the numeric order of minute values. -/
theorem ltStr_formatTime (a b : Nat) (ha : a < 6000) (hb : b < 6000) :
    ltStr (formatTime a) (formatTime b) = decide (a < b) := by
  simp only [formatTime]
  rw [ltStr5, decide_eq_decide]
  omega

/-- Parsing a rendered minute value is the identity (below 100 hours). -/
theorem parseTime_formatTime (m : Nat) (hm : m < 6000) : parseTime (formatTime m) = m := by
  have h1 : ¬ (48 + m / 60 / 10 = 58) := by omega
  have h2 : ¬ (48 + m / 60 % 10 = 58) := by omega
  simp only [formatTime, parseTime, splitAtColon, if_neg h1, if_neg h2, if_pos rfl,
    parseDigits, List.foldl]
  omega

/-- Characterization of the slots emitted by the generation loop: exactly
the starts `current + k·g` whose full slot fits in the window and is not
blocked by a fetched booking. -/
theorem mem_genSlotsAux (g : Nat) (bks : List Booking) (e : Nat) (sl : Slot) (hg : 0 < g) :
    ∀ fuel current, e ≤ current + fuel →
      (sl ∈ genSlotsAux g bks fuel current e ↔
        ∃ k, current + k * g + g ≤ e ∧ bookedAt bks (current + k * g) g = false ∧
          sl = slotAt (current + k * g) g) := by
  intro fuel
  induction fuel with
  | zero =>
    intro current hf
    simp only [genSlotsAux, List.not_mem_nil, false_iff, not_exists]
    rintro k ⟨hk1, -, -⟩
    omega
  | succ n ih =>
    intro current hf
    rw [genSlotsAux]
    by_cases hc : current < e
    · rw [if_pos hc, List.mem_append, ih (current + g) (by omega)]
      constructor
      · rintro (h1 | ⟨k, hk1, hk2, hk3⟩)
        · by_cases hcond : bookedAt bks current g = false ∧ current + g ≤ e
          · rw [if_pos hcond] at h1
            simp only [List.mem_singleton] at h1
            exact ⟨0, by simpa using hcond.2, by simpa using hcond.1, by simpa using h1⟩
          · rw [if_neg hcond] at h1
            simp at h1
        · have harg : current + g + k * g = current + (k + 1) * g := by ring
          rw [harg] at hk1 hk2 hk3
          exact ⟨k + 1, hk1, hk2, hk3⟩
      · rintro ⟨k, hk1, hk2, hk3⟩
        cases k with
        | zero =>
          left
          simp only [Nat.zero_mul, Nat.add_zero] at hk1 hk2 hk3
          rw [if_pos ⟨hk2, hk1⟩]
          simp [hk3]
        | succ k =>
          right
          have harg : current + g + k * g = current + (k + 1) * g := by ring
          rw [← harg] at hk1 hk2 hk3
          exact ⟨k, hk1, hk2, hk3⟩
    · rw [if_neg hc]
      simp only [List.not_mem_nil, false_iff, not_exists]
      rintro k ⟨hk1, -, -⟩
      omega

/-- `List.find?` over the key-preserving replacement used by
`updateBooking`. -/
theorem find?_update (l : List (Nat × Booking)) (bid id : Nat) (b : Booking) :
    (l.map (fun p => if p.1 == bid then (bid, b) else p)).find? (fun p => p.1 == id) =
      (l.find? (fun p => p.1 == id)).map (fun p => if p.1 == bid then (bid, b) else p) := by
  rw [List.find?_map]
  have hpred :
      ((fun p : Nat × Booking => p.1 == id) ∘
        (fun p : Nat × Booking => if p.1 == bid then (bid, b) else p)) =
      (fun p : Nat × Booking => p.1 == id) := by
    funext p
    by_cases h : p.1 = bid <;> simp [Function.comp, h]
  rw [hpred]

/-- `findBooking` after `updateBooking`: only the targeted id changes, and
only if it was present. -/
theorem findBooking_updateBooking (st : SysState) (bid id : Nat) (b : Booking) :
    findBooking (updateBooking st bid b) id =
      (findBooking st id).map (fun old => if id = bid then b else old) := by
  unfold findBooking updateBooking
  simp only
  rw [find?_update]
  cases h : st.bookings.find? (fun p => p.1 == id) with
  | none => rfl
  | some p =>
    have hp : p.1 = id := by
      have := List.find?_some h
      simpa using this
    by_cases hid : id = bid <;> simp [Option.map_map, hp, hid]

/-- A booking replacement that keeps `totalAmount` keeps every stored
amount. -/
theorem amountAt_updateBooking (st : SysState) (bid : Nat) (b b' : Booking)
    (hb : findBooking st bid = some b) (ha : b'.totalAmount = b.totalAmount) (id : Nat) :
    amountAt (updateBooking st bid b') id = amountAt st id := by
  unfold amountAt
  rw [findBooking_updateBooking]
  cases h : findBooking st id with
  | none => rfl
  | some old =>
    by_cases hid : id = bid
    · subst hid
      rw [hb] at h
      injection h with h
      subst h
      simp [ha]
    · simp [hid]

/-- The string `09:00`. -/
def t0900 : TStr := [48, 57, 58, 48, 48]

/-- The string `10:00`. -/
def t1000 : TStr := [49, 48, 58, 48, 48]

/-- The string `10:30`. -/
def t1030 : TStr := [49, 48, 58, 51, 48]

/-- The string `11:00`. -/
def t1100 : TStr := [49, 49, 58, 48, 48]

/-- The string `14:00`. -/
def t1400 : TStr := [49, 52, 58, 48, 48]

/-- The string `15:00`. -/
def t1500 : TStr := [49, 53, 58, 48, 48]

/-- The string `17:00`. -/
def t1700 : TStr := [49, 55, 58, 48, 48]

/-- The single-digit-hour string `9:00`, accepted by the validation
regex. -/
def tNine : TStr := [57, 58, 48, 48]

/-- The empty free-text string. -/
def emptyStr : String := ""

/-- An approved tutor with rate 500 and a Monday 09:00–17:00 window. -/
def tutorU : User :=
  { id := 1, role := .tutor, isApproved := true, hourlyRate := 500,
    availableHours := [{ day := 0, startTime := t0900, endTime := t1700 }] }

/-- A course taught by that tutor. -/
def courseC : Course := { id := 2, tutor := 1 }

/-- A state with the tutor, the course and no bookings.  Day number 7 is a
Monday (weekday 0). -/
def baseState : SysState :=
  { users := [tutorU], courses := [courseC], bookings := [], nextBookingId := 0 }

/-- Run a boolean check on the state produced by a successful operation. -/
def stateCheck (f : SysState → Bool) : Except BError SysState → Bool
  | .ok st => f st
  | .error _ => false

/-- A 10:00–11:00 booking request on the Monday. -/
def reqA : CreateReq :=
  { tutorId := 1, courseId := 2, sessionDate := 7, startTime := t1000,
    endTime := t1100, duration := 60 }

/-- Two students book the identical interval; both bookings are created as
`pending`, so the conflict query (which only sees `confirmed`/`in-progress`
bookings) blocks neither. -/
def resC1creates : Except BError SysState := do
  let p1 ← createBooking baseState 10 reqA
  let p2 ← createBooking p1.1 11 reqA
  pure p2.1

/-- ... and the tutor then confirms both bookings; `confirm` checks only
the status, not conflicts. -/
def resC1 : Except BError SysState := do
  let st2 ← resC1creates
  let st3 ← confirmBooking st2 0 1
  confirmBooking st3 1 1

/-- C1: the no-overlapping-active-bookings invariant is NOT preserved by
every exposed operation.  From the empty schedule, two `createBooking`
calls for the identical tutor/date/interval both succeed (both `pending`,
so the invariant still holds), and the tutor's two `confirmBooking` calls
then both succeed — `confirm` re-checks no conflicts — leaving two
`confirmed` bookings of the same tutor on the same date with identical
overlapping intervals. -/
theorem claim_C1_code_bug :
    stateCheck noOverlapB resC1creates = true ∧
    isOkE resC1 = true ∧
    stateCheck noOverlapB resC1 = false :=
  ⟨by decide, by decide, by decide⟩

/-- A confirmed Monday 10:00–11:00 booking (id 0), a confirmed booking on
another day (id 1), and an in-progress booking on a third day (id 2). -/
def bkC2a : Booking :=
  { student := 10, tutor := 1, course := 2, sessionDate := 7, startTime := t1000,
    endTime := t1100, duration := 60, totalAmount := 500, status := .confirmed }

/-- See `bkC2a`. -/
def bkC2b : Booking :=
  { student := 11, tutor := 1, course := 2, sessionDate := 8, startTime := t1000,
    endTime := t1100, duration := 60, totalAmount := 500, status := .confirmed }

/-- See `bkC2a`. -/
def bkC2c : Booking :=
  { student := 12, tutor := 1, course := 2, sessionDate := 9, startTime := t1400,
    endTime := t1500, duration := 60, totalAmount := 500, status := .inProgress }

/-- State for the reschedule claim. -/
def stC2 : SysState :=
  { users := [tutorU], courses := [courseC],
    bookings := [(0, bkC2a), (1, bkC2b), (2, bkC2c)], nextBookingId := 3 }

/-- Booking 1 (confirmed, on day 8) is rescheduled onto day 7, 10:00–11:00,
which overlaps the confirmed booking 0 of the same tutor. -/
def resC2 : Except BError SysState :=
  rescheduleBooking stC2 1 7 t1000 t1100 emptyStr 11 999

/-- C2: `reschedule` runs NO conflict re-check and is not restricted to
`pending`/`confirmed`.  Rescheduling a confirmed booking onto an interval
that overlaps another confirmed booking of the same tutor succeeds, commits
the new date/time, appends the history record — and leaves the store
violating the no-overlap invariant.  An `in-progress` booking can also be
rescheduled. -/
theorem claim_C2_code_bug :
    isOkE resC2 = true ∧
    stateCheck noOverlapB resC2 = false ∧
    stateCheck (fun st =>
      match findBooking st 1 with
      | some b => b.sessionDate == 7 && b.rescheduleHistory.length == 1
      | none => false) resC2 = true ∧
    isOkE (rescheduleBooking stC2 2 10 t1400 t1500 emptyStr 12 999) = true :=
  ⟨by decide, by decide, by decide, by decide⟩

/-- State for C3: one confirmed 10:00–11:00 booking on the Monday. -/
def stC3 : SysState :=
  { users := [tutorU], courses := [courseC], bookings := [(0, bkC2a)], nextBookingId := 1 }

/-- A request for `9:00`–`10:30` (single-digit hour), which numerically
overlaps the stored 10:00–11:00 booking. -/
def reqC3 : CreateReq :=
  { tutorId := 1, courseId := 2, sessionDate := 7, startTime := tNine,
    endTime := t1030, duration := 90 }

/-- C3 as stated is false: the validation regex admits the single-digit
hour `9:00`; numerically `[540, 630)` overlaps the stored confirmed
`[600, 660)`, but under MongoDB's lexicographic string comparison
`9:00 < 11:00` is false (code 57 vs 49), so the commit-time conflict query
finds nothing and `createBooking` succeeds instead of returning
Conflict. -/
theorem claim_C3_counterexample :
    validTime tNine = true ∧ validTime t1030 = true ∧
    numOverlap (parseTime tNine) (parseTime t1030)
      (parseTime bkC2a.startTime) (parseTime bkC2a.endTime) = true ∧
    hasConflictStr stC3 1 7 tNine t1030 = false ∧
    isOkE (createBooking stC3 11 reqC3) = true :=
  ⟨by decide, by decide, by decide, by decide, by decide⟩

/-- C3 (amended): restricted to zero-padded two-digit-hour `HH:MM` times —
the form `formatTime` produces and the slot picker hands back — the
commit-time string-comparison conflict query of `createBooking` is
equivalent to the numeric half-open overlap rule `bs < e ∧ s < be` used for
slot generation. -/
theorem claim_C3_amended (st : SysState) (tid d s e : Nat)
    (hs : s < 1440) (he : e < 1440)
    (hwf : ∀ p ∈ st.bookings, ∃ m1 m2, m1 < 1440 ∧ m2 < 1440 ∧
      p.2.startTime = formatTime m1 ∧ p.2.endTime = formatTime m2) :
    hasConflictStr st tid d (formatTime s) (formatTime e) = true ↔
      ∃ p ∈ st.bookings, p.2.tutor = tid ∧ p.2.sessionDate = d ∧ isActive p.2 = true ∧
        parseTime p.2.startTime < e ∧ s < parseTime p.2.endTime := by
  unfold hasConflictStr
  rw [List.any_eq_true]
  constructor
  · rintro ⟨p, hp, hcond⟩
    obtain ⟨m1, m2, hm1, hm2, he1, he2⟩ := hwf p hp
    simp only [Bool.and_eq_true, beq_iff_eq] at hcond
    obtain ⟨⟨⟨⟨h1, h2⟩, h3⟩, h4⟩, h5⟩ := hcond
    rw [he1, ltStr_formatTime m1 e (by omega) (by omega), decide_eq_true_eq] at h4
    rw [he2, ltStr_formatTime s m2 (by omega) (by omega), decide_eq_true_eq] at h5
    refine ⟨p, hp, h1, h2, h3, ?_, ?_⟩
    · rw [he1, parseTime_formatTime m1 (by omega)]
      exact h4
    · rw [he2, parseTime_formatTime m2 (by omega)]
      exact h5
  · rintro ⟨p, hp, h1, h2, h3, h4, h5⟩
    obtain ⟨m1, m2, hm1, hm2, he1, he2⟩ := hwf p hp
    rw [he1, parseTime_formatTime m1 (by omega)] at h4
    rw [he2, parseTime_formatTime m2 (by omega)] at h5
    refine ⟨p, hp, ?_⟩
    simp only [Bool.and_eq_true, beq_iff_eq]
    refine ⟨⟨⟨⟨h1, h2⟩, h3⟩, ?_⟩, ?_⟩
    · rw [he1, ltStr_formatTime m1 e (by omega) (by omega), decide_eq_true_eq]
      exact h4
    · rw [he2, ltStr_formatTime s m2 (by omega) (by omega), decide_eq_true_eq]
      exact h5

/-- Witness for the amended C3: a 10:30–11:30 request against a stored
confirmed 10:00–11:00 booking (all times zero-padded) is reported as a
conflict. -/
theorem claim_C3_amended_witness :
    hasConflictStr stC3 1 7 (formatTime 630) (formatTime 690) = true := by
  refine (claim_C3_amended stC3 1 7 630 690 (by decide) (by decide) ?_).mpr ?_
  · intro p hp
    have hp2 : p = (0, bkC2a) := by
      simpa [stC3] using hp
    subst hp2
    exact ⟨600, 660, by decide, by decide, by decide, by decide⟩
  · refine ⟨(0, bkC2a), by simp [stC3], rfl, rfl, by decide, by decide, by decide⟩

/-- The 16 half-hour slots from 09:00 to 17:00. -/
def slotsC4 : List Slot := (List.range 16).map (fun k => slotAt (540 + 30 * k) 30)

/-- Decidable check that a slot list is chronologically ordered and
contiguous (each slot ends where the next begins). -/
def contiguousB : List Slot → Bool
  | [] => true
  | [_] => true
  | s1 :: s2 :: rest =>
    (s1.endTime == s2.startTime) &&
    decide (parseTime s1.startTime < parseTime s2.startTime) &&
    contiguousB (s2 :: rest)

/-- C4: for the tutor's Monday 09:00–17:00 window with no active bookings,
`getAvailability` returns exactly the 16 contiguous, chronologically
ordered 30-minute slots from 09:00 to 17:00; and in general the generator
emits precisely the 30-minute slots that fit inside the window and do not
overlap a fetched active booking (so a trailing partial slot is
dropped). -/
theorem claim_C4 :
    getTutorAvailability baseState 1 7 = .slots slotsC4 ∧
    slotsC4.length = 16 ∧
    contiguousB slotsC4 = true ∧
    (∀ (bks : List Booking) (stS stE : TStr) (sl : Slot),
      sl ∈ generateTimeSlots stS stE bks 30 ↔
        ∃ k, parseTime stS + k * 30 + 30 ≤ parseTime stE ∧
          bookedAt bks (parseTime stS + k * 30) 30 = false ∧
          sl = slotAt (parseTime stS + k * 30) 30) := by
  refine ⟨by decide, by decide, by decide, ?_⟩
  intro bks stS stE sl
  exact mem_genSlotsAux 30 bks (parseTime stE) sl (by omega)
    (parseTime stE) (parseTime stS) (by omega)

/-- A confirmed booking on day 1 starting 14:00, priced 500. -/
def bkC5 : Booking :=
  { student := 10, tutor := 1, course := 2, sessionDate := 1, startTime := t1400,
    endTime := t1500, duration := 60, totalAmount := 500, status := .confirmed }

/-- State holding `bkC5` as booking 0. -/
def stC5 : SysState :=
  { users := [tutorU], courses := [courseC], bookings := [(0, bkC5)], nextBookingId := 1 }

/-- 13:00 on day 0, i.e. exactly 25 hours before the session start
(day 1, 14:00) but only 11 hours before midnight of day 1. -/
def nowC5 : Int := 46800000

/-- C5 is false as stated: `cancelBooking` measures the notice period to
`new Date(booking.sessionDate)` — midnight of the session day — not to the
session start.  Cancelling 25 hours before a 14:00 session start is 11
hours before that midnight, so the code refunds 50% (250) where the
claim's sessionStart-based rule yields a full refund (500). -/
theorem claim_C5_counterexample :
    Except.map Prod.snd (cancelBooking stC5 0 10 emptyStr nowC5) = .ok (250 : ℚ) ∧
    specRefund bkC5 nowC5 = 500 := by
  constructor
  · have hh : hoursUntilSession bkC5.sessionDate nowC5 = 11 := by
      norm_num [hoursUntilSession, msPerDay, bkC5, nowC5]
    have hr : refundFor bkC5.totalAmount (hoursUntilSession bkC5.sessionDate nowC5) = 250 := by
      rw [hh]
      norm_num [refundFor, bkC5]
    unfold cancelBooking
    rw [show findBooking stC5 0 = some bkC5 from rfl]
    dsimp only
    rw [if_neg (not_not_intro (show bkC5.student = 10 ∨ bkC5.tutor = 10 from Or.inl rfl))]
    rw [hr]
    unfold Booking.cancel
    rw [if_neg (by decide)]
    rfl
  · have hh : specHoursUntilSession bkC5 nowC5 = 25 := by
      norm_num [specHoursUntilSession, msPerDay, bkC5, nowC5, parseTime, splitAtColon,
        parseDigits, t1400]
    simp only [specRefund, hh]
    norm_num [bkC5]

/-- C5 (amended): the refund tiers are exactly as claimed — full above 24
hours, half between 2 and 24, zero at or below 2, with the stated point
values at 25, 10 and 1 hours — but `hoursUntilSession` is measured from
midnight of the stored session date, not from the session's start time. -/
theorem claim_C5_amended (st : SysState) (bid uid : Nat) (reason : String) (nowMs : Int)
    (b : Booking) (hb : findBooking st bid = some b)
    (hactor : b.student = uid ∨ b.tutor = uid)
    (hstatus : ¬ (b.status = .completed ∨ b.status = .cancelled)) :
    Except.map Prod.snd (cancelBooking st bid uid reason nowMs) =
      .ok (refundFor b.totalAmount (hoursUntilSession b.sessionDate nowMs)) ∧
    (∀ A : Int, ∀ h : ℚ,
      (24 < h → refundFor A h = (A : ℚ)) ∧
      (2 < h → h ≤ 24 → refundFor A h = (A : ℚ) / 2) ∧
      (h ≤ 2 → refundFor A h = 0)) ∧
    (∀ A : Int, refundFor A 25 = (A : ℚ) ∧ refundFor A 10 = (A : ℚ) / 2 ∧
      refundFor A 1 = 0) := by
  refine ⟨?_, ?_, ?_⟩
  · unfold cancelBooking
    rw [hb]
    dsimp only
    rw [if_neg (not_not_intro hactor)]
    unfold Booking.cancel
    rw [if_neg hstatus]
    rfl
  · intro A h
    refine ⟨fun h24 => by rw [refundFor, if_pos h24], fun h2 h24 => ?_, fun h2 => ?_⟩
    · rw [refundFor, if_neg (by linarith), if_pos h2]
      ring
    · rw [refundFor, if_neg (by linarith), if_neg (by linarith)]
  · intro A
    refine ⟨?_, ?_, ?_⟩
    · rw [refundFor, if_pos (by norm_num)]
    · rw [refundFor, if_neg (by norm_num), if_pos (by norm_num)]
      ring
    · rw [refundFor, if_neg (by norm_num), if_neg (by norm_num)]

/-- Witness for the amended C5 at the concrete cancellation of `bkC5`. -/
theorem claim_C5_amended_witness :
    Except.map Prod.snd (cancelBooking stC5 0 10 emptyStr nowC5) =
      .ok (refundFor bkC5.totalAmount (hoursUntilSession bkC5.sessionDate nowC5)) :=
  (claim_C5_amended stC5 0 10 emptyStr nowC5 bkC5 rfl (Or.inl rfl) (by decide)).1

/-- C6: for the booking's own tutor, confirming a non-pending booking
fails with InvalidState (no state change is produced), confirming a
pending booking succeeds and changes exactly the status to `confirmed`;
any other caller is rejected with Forbidden. -/
theorem claim_C6 (st : SysState) (bid tid : Nat) (b : Booking)
    (hb : findBooking st bid = some b) :
    (¬ b.tutor = tid → confirmBooking st bid tid = .error .forbidden) ∧
    (b.tutor = tid → ¬ b.status = .pending →
      confirmBooking st bid tid = .error .invalidState) ∧
    (b.tutor = tid → b.status = .pending →
      confirmBooking st bid tid =
        .ok (updateBooking st bid { b with status := .confirmed })) := by
  refine ⟨?_, ?_, ?_⟩
  · intro h1
    unfold confirmBooking
    rw [hb]
    dsimp only
    rw [if_pos h1]
  · intro h1 h2
    unfold confirmBooking
    rw [hb]
    dsimp only
    rw [if_neg (not_not_intro h1), if_pos h2]
  · intro h1 h2
    unfold confirmBooking
    rw [hb]
    dsimp only
    rw [if_neg (not_not_intro h1), if_neg (not_not_intro h2)]
    unfold Booking.confirm
    rw [if_neg (not_not_intro h2)]
    rfl

/-- A pending booking used to witness the confirm transition. -/
def bkC6 : Booking :=
  { student := 10, tutor := 1, course := 2, sessionDate := 7, startTime := t1000,
    endTime := t1100, duration := 60, totalAmount := 500, status := .pending }

/-- State holding `bkC6` as booking 0. -/
def stC6 : SysState :=
  { users := [tutorU], courses := [courseC], bookings := [(0, bkC6)], nextBookingId := 1 }

/-- Witness for C6: the tutor confirms the pending booking. -/
theorem claim_C6_witness :
    confirmBooking stC6 0 1 =
      .ok (updateBooking stC6 0 { bkC6 with status := BStatus.confirmed }) :=
  (claim_C6 stC6 0 1 bkC6 rfl).2.2 rfl rfl

/-- C7: cancelling an already-completed or already-cancelled booking fails
with InvalidState; no updated state is produced, so status,
cancellationReason, refundAmount and paymentStatus all stay exactly as
they were. -/
theorem claim_C7 (st : SysState) (bid uid : Nat) (reason : String) (nowMs : Int)
    (b : Booking) (hb : findBooking st bid = some b)
    (hactor : b.student = uid ∨ b.tutor = uid)
    (hstatus : b.status = .completed ∨ b.status = .cancelled) :
    cancelBooking st bid uid reason nowMs = .error .invalidState := by
  unfold cancelBooking
  rw [hb]
  dsimp only
  rw [if_neg (not_not_intro hactor)]
  unfold Booking.cancel
  rw [if_pos hstatus]
  rfl

/-- A completed booking. -/
def bkC7 : Booking :=
  { student := 10, tutor := 1, course := 2, sessionDate := 7, startTime := t1000,
    endTime := t1100, duration := 60, totalAmount := 500, status := .completed }

/-- State holding `bkC7` as booking 0. -/
def stC7 : SysState :=
  { users := [tutorU], courses := [courseC], bookings := [(0, bkC7)], nextBookingId := 1 }

/-- Witness for C7: cancelling the completed booking fails with
InvalidState. -/
theorem claim_C7_witness :
    cancelBooking stC7 0 10 emptyStr 0 = .error .invalidState :=
  claim_C7 stC7 0 10 emptyStr 0 bkC7 rfl (Or.inl rfl) (Or.inl rfl)

/-- C8: `createBooking` snapshots `totalAmount` as
`Math.round(hourlyRate × duration/60)` from the tutor's rate at creation
time (`nextBookingId` fresh, as maintained by the insert path); no other
exposed operation ever changes any stored `totalAmount`; and updating a
tutor's hourly rate touches only the users collection, leaving every
booking untouched. -/
theorem claim_C8 :
    (∀ (st : SysState) (sid : Nat) (r : CreateReq) (st' : SysState) (bid : Nat),
      (∀ p ∈ st.bookings, ¬ p.1 = st.nextBookingId) →
      createBooking st sid r = .ok (st', bid) →
      ∃ tutor, findUser st r.tutorId = some tutor ∧
        amountAt st' bid =
          some (jsRound ((tutor.hourlyRate : ℚ) * ((r.duration : ℚ) / 60)))) ∧
    (∀ (st : SysState) (bid tid : Nat) (st' : SysState),
      confirmBooking st bid tid = .ok st' → ∀ id, amountAt st' id = amountAt st id) ∧
    (∀ (st : SysState) (bid uid : Nat) (reason : String) (nowMs : Int)
        (pr : SysState × ℚ),
      cancelBooking st bid uid reason nowMs = .ok pr →
      ∀ id, amountAt pr.1 id = amountAt st id) ∧
    (∀ (st : SysState) (bid tid : Nat) (nowMs : Int) (st' : SysState),
      completeBooking st bid tid nowMs = .ok st' →
      ∀ id, amountAt st' id = amountAt st id) ∧
    (∀ (st : SysState) (bid nd : Nat) (ns ne : TStr) (reason : String)
        (rb : Nat) (nowMs : Int) (st' : SysState),
      rescheduleBooking st bid nd ns ne reason rb nowMs = .ok st' →
      ∀ id, amountAt st' id = amountAt st id) ∧
    (∀ (st : SysState) (bid uid : Nat) (role : Role) (rating : Nat)
        (comment : String) (nowMs : Int) (st' : SysState),
      addBookingFeedback st bid uid role rating comment nowMs = .ok st' →
      ∀ id, amountAt st' id = amountAt st id) ∧
    (∀ (st : SysState) (uid newRate : Nat),
      (updateTutorHourlyRate st uid newRate).bookings = st.bookings) := by
  refine ⟨?_, ?_, ?_, ?_, ?_, ?_, fun _ _ _ => rfl⟩
  · intro st sid r st' bid hfresh hok
    unfold createBooking at hok
    by_cases hv : ¬ (validTime r.startTime = true ∧ validTime r.endTime = true ∧ 30 ≤ r.duration)
    · rw [if_pos hv] at hok
      cases hok
    · rw [if_neg hv] at hok
      cases hu : findUser st r.tutorId with
      | none => rw [hu] at hok; cases hok
      | some tutor =>
        rw [hu] at hok
        dsimp only at hok
        by_cases hrole : ¬ (tutor.role = .tutor ∧ tutor.isApproved)
        · rw [if_pos hrole] at hok; cases hok
        · rw [if_neg hrole] at hok
          cases hc : findCourse st r.courseId with
          | none => rw [hc] at hok; cases hok
          | some course =>
            rw [hc] at hok
            dsimp only at hok
            by_cases hct : ¬ course.tutor = r.tutorId
            · rw [if_pos hct] at hok; cases hok
            · rw [if_neg hct] at hok
              cases hw : tutor.availableHours.find? (fun w => w.day == dayOfWeek r.sessionDate) with
              | none => rw [hw] at hok; cases hok
              | some w =>
                rw [hw] at hok
                dsimp only at hok
                by_cases hout : parseTime r.startTime < parseTime w.startTime ∨
                    parseTime w.endTime < parseTime r.endTime
                · rw [if_pos hout] at hok; cases hok
                · rw [if_neg hout] at hok
                  by_cases hconf : hasConflictStr st r.tutorId r.sessionDate r.startTime r.endTime = true
                  · rw [if_pos hconf] at hok; cases hok
                  · rw [if_neg hconf] at hok
                    injection hok with hok
                    injection hok with hok1 hok2
                    subst hok1
                    subst hok2
                    refine ⟨tutor, rfl, ?_⟩
                    unfold amountAt findBooking
                    dsimp only
                    rw [List.find?_append]
                    rw [List.find?_eq_none.mpr (by
                      intro x hx
                      simpa using hfresh x hx)]
                    simp
  · intro st bid tid st' hok id
    unfold confirmBooking at hok
    cases hfb : findBooking st bid with
    | none => rw [hfb] at hok; cases hok
    | some b =>
      rw [hfb] at hok
      dsimp only at hok
      by_cases h1 : ¬ b.tutor = tid
      · rw [if_pos h1] at hok; cases hok
      · rw [if_neg h1] at hok
        by_cases h2 : ¬ b.status = .pending
        · rw [if_pos h2] at hok; cases hok
        · rw [if_neg h2] at hok
          unfold Booking.confirm at hok
          rw [if_neg h2] at hok
          injection hok with hok
          subst hok
          refine amountAt_updateBooking st bid b _ hfb ?_ id
          rfl
  · intro st bid uid reason nowMs pr hok id
    unfold cancelBooking at hok
    cases hfb : findBooking st bid with
    | none => rw [hfb] at hok; cases hok
    | some b =>
      rw [hfb] at hok
      dsimp only at hok
      by_cases h1 : ¬ (b.student = uid ∨ b.tutor = uid)
      · rw [if_pos h1] at hok; cases hok
      · rw [if_neg h1] at hok
        unfold Booking.cancel at hok
        by_cases h2 : b.status = .completed ∨ b.status = .cancelled
        · rw [if_pos h2] at hok; cases hok
        · rw [if_neg h2] at hok
          dsimp only at hok
          injection hok with hok
          subst hok
          dsimp only
          refine amountAt_updateBooking st bid b _ hfb ?_ id
          by_cases h3 : 0 < refundFor b.totalAmount (hoursUntilSession b.sessionDate nowMs)
          · rw [if_pos h3]
          · rw [if_neg h3]
  · intro st bid tid nowMs st' hok id
    unfold completeBooking at hok
    cases hfb : findBooking st bid with
    | none => rw [hfb] at hok; cases hok
    | some b =>
      rw [hfb] at hok
      dsimp only at hok
      by_cases h1 : ¬ b.tutor = tid
      · rw [if_pos h1] at hok; cases hok
      · rw [if_neg h1] at hok
        unfold Booking.complete at hok
        by_cases h2 : ¬ (b.status = .confirmed ∨ b.status = .inProgress)
        · rw [if_pos h2] at hok; cases hok
        · rw [if_neg h2] at hok
          injection hok with hok
          subst hok
          refine amountAt_updateBooking st bid b _ hfb ?_ id
          rfl
  · intro st bid nd ns ne reason rb nowMs st' hok id
    unfold rescheduleBooking at hok
    cases hfb : findBooking st bid with
    | none => rw [hfb] at hok; cases hok
    | some b =>
      rw [hfb] at hok
      dsimp only at hok
      unfold Booking.reschedule at hok
      by_cases h2 : b.status = .completed ∨ b.status = .cancelled
      · rw [if_pos h2] at hok; cases hok
      · rw [if_neg h2] at hok
        injection hok with hok
        subst hok
        refine amountAt_updateBooking st bid b _ hfb ?_ id
        rfl
  · intro st bid uid role rating comment nowMs st' hok id
    unfold addBookingFeedback at hok
    cases hfb : findBooking st bid with
    | none => rw [hfb] at hok; cases hok
    | some b =>
      rw [hfb] at hok
      dsimp only at hok
      by_cases h1 : ¬ (b.student = uid ∨ b.tutor = uid)
      · rw [if_pos h1] at hok; cases hok
      · rw [if_neg h1] at hok
        unfold Booking.addFeedbackM at hok
        by_cases h2 : ¬ b.status = .completed
        · rw [if_pos h2] at hok; cases hok
        · rw [if_neg h2] at hok
          cases role with
          | student =>
            dsimp only at hok
            injection hok with hok
            subst hok
            refine amountAt_updateBooking st bid b _ hfb ?_ id
            rfl
          | tutor =>
            dsimp only at hok
            injection hok with hok
            subst hok
            refine amountAt_updateBooking st bid b _ hfb ?_ id
            rfl
          | admin =>
            dsimp only at hok
            injection hok with hok
            subst hok
            refine amountAt_updateBooking st bid b _ hfb ?_ id
            rfl

/-- Witness for C8: the tutor's confirm of the pending booking leaves the
stored amount unchanged. -/
theorem claim_C8_witness :
    amountAt (updateBooking stC6 0 { bkC6 with status := BStatus.confirmed }) 0 =
      amountAt stC6 0 :=
  (claim_C8.2.1 stC6 0 1
    (updateBooking stC6 0 { bkC6 with status := BStatus.confirmed }) rfl) 0

/-- C9: feedback is accepted only on a completed booking (any role,
InvalidState otherwise); a student submission overwrites exactly the
student slot, a tutor submission exactly the tutor slot — in each case the
other party's slot and every other booking field are carried over
unchanged, and a resubmission simply overwrites the submitter's slot
again. -/
theorem claim_C9 (st : SysState) (bid uid : Nat) (b : Booking) (role : Role)
    (rating : Nat) (comment : String) (nowMs : Int)
    (hb : findBooking st bid = some b)
    (hpart : b.student = uid ∨ b.tutor = uid) :
    (¬ b.status = .completed →
      addBookingFeedback st bid uid role rating comment nowMs = .error .invalidState) ∧
    (b.status = .completed →
      addBookingFeedback st bid uid .student rating comment nowMs =
        .ok (updateBooking st bid { b with
          feedback := { b.feedback with
            studentFeedback := some ⟨rating, comment, nowMs⟩ } })) ∧
    (b.status = .completed →
      addBookingFeedback st bid uid .tutor rating comment nowMs =
        .ok (updateBooking st bid { b with
          feedback := { b.feedback with
            tutorFeedback := some ⟨rating, comment, nowMs⟩ } })) := by
  refine ⟨?_, ?_, ?_⟩
  · intro h2
    unfold addBookingFeedback
    rw [hb]
    dsimp only
    rw [if_neg (not_not_intro hpart)]
    unfold Booking.addFeedbackM
    rw [if_pos h2]
    cases role <;> rfl
  · intro h2
    unfold addBookingFeedback
    rw [hb]
    dsimp only
    rw [if_neg (not_not_intro hpart)]
    unfold Booking.addFeedbackM
    rw [if_neg (not_not_intro h2)]
    rfl
  · intro h2
    unfold addBookingFeedback
    rw [hb]
    dsimp only
    rw [if_neg (not_not_intro hpart)]
    unfold Booking.addFeedbackM
    rw [if_neg (not_not_intro h2)]
    rfl

/-- Witness for C9: the student of the completed booking `bkC7` submits
feedback. -/
theorem claim_C9_witness :
    addBookingFeedback stC7 0 10 Role.student 5 emptyStr 7 =
      .ok (updateBooking stC7 0 { bkC7 with
        feedback := { bkC7.feedback with
          studentFeedback := some ⟨5, emptyStr, 7⟩ } }) :=
  (claim_C9 stC7 0 10 bkC7 Role.student 5 emptyStr 7 rfl (Or.inl rfl)).2.1 rfl

/-- A pending 10:00–11:00 booking of tutor 1 on the Monday. -/
def bkC10 : Booking :=
  { student := 10, tutor := 1, course := 2, sessionDate := 7, startTime := t1000,
    endTime := t1100, duration := 60, totalAmount := 500, status := .pending }

/-- State holding only the pending booking `bkC10`. -/
def stC10 : SysState :=
  { users := [tutorU], courses := [courseC], bookings := [(0, bkC10)], nextBookingId := 1 }

/-- Decidable check that bookings 0 and 1 are both pending, share the
tutor and date, and numerically overlap. -/
def twoPendingOverlap (st : SysState) : Bool :=
  match findBooking st 0, findBooking st 1 with
  | some a, some b =>
    a.status == .pending && b.status == .pending &&
    a.tutor == b.tutor && a.sessionDate == b.sessionDate &&
    numOverlap (parseTime a.startTime) (parseTime a.endTime)
      (parseTime b.startTime) (parseTime b.endTime)
  | _, _ => false

/-- Two identical 10:00–11:00 requests from different students. -/
def resC10 : Except BError SysState := do
  let p1 ← createBooking baseState 20 reqA
  let p2 ← createBooking p1.1 21 reqA
  pure p2.1

/-- C10: `pending` bookings never block an interval.  Availability is
computed as if only confirmed/in-progress bookings existed (a state whose
bookings on the queried tutor/date are all pending yields the same slots
as one with no bookings at all); the commit-time conflict query reports
nothing when no active booking overlaps, regardless of pending ones; and
two identical createBooking calls both succeed, leaving two coexisting
overlapping pending bookings. -/
theorem claim_C10 :
    (∀ (st : SysState) (tid date : Nat),
      (∀ p ∈ st.bookings, p.2.tutor = tid → p.2.sessionDate = date →
        p.2.status = .pending) →
      getTutorAvailability st tid date =
        getTutorAvailability
          { users := st.users, courses := st.courses, bookings := [],
            nextBookingId := st.nextBookingId } tid date) ∧
    (∀ (st : SysState) (tid date : Nat) (s e : TStr),
      (∀ p ∈ st.bookings, isActive p.2 = true →
        ¬ (p.2.tutor = tid ∧ p.2.sessionDate = date ∧
          ltStr p.2.startTime e = true ∧ ltStr s p.2.endTime = true)) →
      hasConflictStr st tid date s e = false) ∧
    isOkE resC10 = true ∧
    stateCheck twoPendingOverlap resC10 = true := by
  refine ⟨?_, ?_, by decide, by decide⟩
  · intro st tid date hp
    have hfil : st.bookings.filter
        (fun p => p.2.tutor == tid && p.2.sessionDate == date && isActive p.2) = [] := by
      rw [List.filter_eq_nil_iff]
      intro p hmem
      simp only [Bool.and_eq_true, beq_iff_eq]
      rintro ⟨⟨h1, h2⟩, h3⟩
      have hpend := hp p hmem h1 h2
      simp [isActive, hpend] at h3
    unfold getTutorAvailability
    simp only [activeBookingsOn, hfil, List.filter_nil, List.map_nil]
    rfl
  · intro st tid date s e hp
    unfold hasConflictStr
    rw [List.any_eq_false]
    intro p hmem
    simp only [Bool.and_eq_true, beq_iff_eq]
    rintro ⟨⟨⟨⟨h1, h2⟩, h3⟩, h4⟩, h5⟩
    exact hp p hmem h3 ⟨h1, h2, h4, h5⟩

/-- Witness for C10: against the single pending overlapping booking of
`stC10`, the commit-time conflict query reports nothing for the same
10:00–11:00 interval. -/
theorem claim_C10_witness :
    hasConflictStr stC10 1 7 t1000 t1100 = false :=
  claim_C10.2.1 stC10 1 7 t1000 t1100 (by decide)

/-- Witness for C4: the 09:00 slot is emitted for the empty booking
list. -/
theorem claim_C4_witness :
    slotAt 540 30 ∈ generateTimeSlots t0900 t1700 [] 30 :=
  (claim_C4.2.2.2 [] t0900 t1700 (slotAt 540 30)).mpr ⟨0, by decide, by decide, by decide⟩
